import Mathlib

/-!
Shallow embedding of the face-capture alignment core of this repository.

The source is a React component (`src/components/FaceCapture.tsx`) together
with three earlier variants of the same component (the unnamed source files).
Each variant runs, once per animation frame, a purely numeric evaluation of
the detected face landmarks against a guideline region, and a capture handler
that crops a still frame to a centered square.  All of that numeric code is
embedded here over `ℚ` (the source computes with JS numbers; every quantity
involved is a ratio of small integers, and the single `Math.sqrt` call is
only ever used in a comparison, which we carry square-free, see `sqrtLt`).
-/

/-- One detected landmark point, normalized coordinates in the detection
frame (`p.x`, `p.y` in the source). -/
structure Point2D where
  x : ℚ
  y : ℚ
deriving DecidableEq, Repr

/-- One detected face: the ordered landmark list the detector returns
(`results.faceLandmarks[i]` in the source). -/
abbrev LandmarkSet := List Point2D

/-- One frame's detections: `results.faceLandmarks` in the source, one entry
per detected face. -/
abbrev DetectionResult := List LandmarkSet

/-- Verdict reason, per the spec's `AlignmentVerdict.reason` enum.  In the
source the reason is observable through the user message / debug string each
branch sets. -/
inductive AlignReason
  | NoFace
  | MultipleFaces
  | Unaligned
  | Aligned
deriving DecidableEq, Repr

/-- Per-tick alignment verdict: the `faceAligned` boolean of the source plus
the reason the branch taken communicates. -/
structure AlignmentVerdict where
  aligned : Bool
  reason : AlignReason
deriving DecidableEq, Repr

/-- `Math.min(...xs)` on a spread list, as the source applies it to the
scaled landmark coordinates.  The detector contract guarantees the list is
nonempty; the `[]` value is irrelevant junk. -/
def minList : List ℚ → ℚ
  | [] => 0
  | x :: xs => xs.foldl min x

/-- `Math.max(...xs)` on a spread list. -/
def maxList : List ℚ → ℚ
  | [] => 0
  | x :: xs => xs.foldl max x

/-- The derived face bounding box (`minX`/`maxX`/`minY`/`maxY` in the
source). -/
structure FaceBox where
  minX : ℚ
  maxX : ℚ
  minY : ℚ
  maxY : ℚ
deriving DecidableEq, Repr

/-- `faceWidth = maxX - minX`. -/
def FaceBox.faceWidth (b : FaceBox) : ℚ := b.maxX - b.minX

/-- `faceHeight = maxY - minY`. -/
def FaceBox.faceHeight (b : FaceBox) : ℚ := b.maxY - b.minY

/-- `faceCenterX = minX + faceWidth / 2`. -/
def FaceBox.centerX (b : FaceBox) : ℚ := b.minX + b.faceWidth / 2

/-- `faceCenterY = minY + faceHeight / 2`. -/
def FaceBox.centerY (b : FaceBox) : ℚ := b.minY + b.faceHeight / 2

/-- Scaling one landmark set to frame pixels and taking coordinate extrema:
lines 86–92 of `FaceCapture.tsx` (and the identical block of each variant). -/
def faceBoxOf (videoWidth videoHeight : ℚ) (landmarks : LandmarkSet) : FaceBox :=
  let xs := landmarks.map (fun p => p.x * videoWidth)
  let ys := landmarks.map (fun p => p.y * videoHeight)
  { minX := minList xs, maxX := maxList xs, minY := minList ys, maxY := maxList ys }

/-- The comparison `Math.sqrt radicand < bound` carried square-free over ℚ:
for a nonnegative radicand, `√radicand < bound` iff `0 < bound` and
`radicand < bound ^ 2` (see `sqrtLt_iff_real`). -/
def sqrtLt (radicand bound : ℚ) : Prop :=
  0 < bound ∧ radicand < bound ^ 2

instance (radicand bound : ℚ) : Decidable (sqrtLt radicand bound) :=
  inferInstanceAs (Decidable (_ ∧ _))

/-- Alignment evaluation of `predictWebcam` in `src/components/FaceCapture.tsx`
(lines 73–121): `RADIUS_FACTOR = 2.8`, `MIN_FACE_SCALE = 0.6`,
`MAX_FACE_SCALE = 1.0`, `CENTER_OFFSET_THRESHOLD = 0.1`; the visible square
side is taken to be the video height, faces are rejected when their scaled
horizontal center falls in the cropped-off margin, and otherwise alignment
requires the center distance strictly below the threshold and the averaged
scale strictly inside the scale bounds. -/
def tsxEvaluate (videoWidth videoHeight : ℚ) (faceLandmarks : DetectionResult) :
    AlignmentVerdict :=
  let visibleSize := videoHeight
  let offsetX := (videoWidth - visibleSize) / 2
  let guidelineRadius := visibleSize / (2.8 : ℚ)
  let centerX := videoWidth / 2
  let centerY := videoHeight / 2
  match faceLandmarks with
  | [] => { aligned := false, reason := .NoFace }
  | landmarks :: _ =>
    let box := faceBoxOf videoWidth videoHeight landmarks
    let faceCenterX := box.centerX
    let faceCenterY := box.centerY
    if offsetX < faceCenterX ∧ faceCenterX < videoWidth - offsetX then
      let maxDistance := visibleSize * (0.1 : ℚ)
      let faceScale := (box.faceWidth + box.faceHeight) / 2 / (guidelineRadius * 2)
      if sqrtLt ((faceCenterX - centerX) ^ 2 + (faceCenterY - centerY) ^ 2) maxDistance
          ∧ (0.6 : ℚ) < faceScale ∧ faceScale < (1.0 : ℚ) then
        { aligned := true, reason := .Aligned }
      else
        { aligned := false, reason := .Unaligned }
    else
      { aligned := false, reason := .Unaligned }

/-- Alignment evaluation of `predictWebcam` in the first unnamed variant
(part_000, lines 111–175): identical to `tsxEvaluate` except
`RADIUS_FACTOR = 4`. -/
def variant000Evaluate (videoWidth videoHeight : ℚ) (faceLandmarks : DetectionResult) :
    AlignmentVerdict :=
  let visibleSize := videoHeight
  let offsetX := (videoWidth - visibleSize) / 2
  let guidelineRadius := visibleSize / (4 : ℚ)
  let centerX := videoWidth / 2
  let centerY := videoHeight / 2
  match faceLandmarks with
  | [] => { aligned := false, reason := .NoFace }
  | landmarks :: _ =>
    let box := faceBoxOf videoWidth videoHeight landmarks
    let faceCenterX := box.centerX
    let faceCenterY := box.centerY
    if offsetX < faceCenterX ∧ faceCenterX < videoWidth - offsetX then
      let maxDistance := visibleSize * (0.1 : ℚ)
      let faceScale := (box.faceWidth + box.faceHeight) / 2 / (guidelineRadius * 2)
      if sqrtLt ((faceCenterX - centerX) ^ 2 + (faceCenterY - centerY) ^ 2) maxDistance
          ∧ (0.6 : ℚ) < faceScale ∧ faceScale < (1.0 : ℚ) then
        { aligned := true, reason := .Aligned }
      else
        { aligned := false, reason := .Unaligned }
    else
      { aligned := false, reason := .Unaligned }

/-- Alignment evaluation of `predictWebcam` in the second unnamed variant
(part_001, lines 56–114): guideline is an ellipse with
`radiusX = canvasWidth / 4.8`, `radiusY = canvasHeight / 3.84`, center the
canvas center; the face bounding box is scaled by the video dimensions; the
distance threshold is `MAX_CENTER_DISTANCE = 50` absolute pixels; width and
height ratios are checked separately against `(0.6, 1.0)` (strict); there is
no cropped-margin check and no multi-face branch (the first face is used). -/
def variant001Evaluate (videoWidth videoHeight canvasWidth canvasHeight : ℚ)
    (faceLandmarks : DetectionResult) : AlignmentVerdict :=
  let centerX := canvasWidth / 2
  let centerY := canvasHeight / 2
  let radiusX := canvasWidth / (4.8 : ℚ)
  let radiusY := canvasHeight / (3.84 : ℚ)
  match faceLandmarks with
  | [] => { aligned := false, reason := .NoFace }
  | landmarks :: _ =>
    let box := faceBoxOf videoWidth videoHeight landmarks
    let widthRatio := box.faceWidth / (radiusX * 2)
    let heightRatio := box.faceHeight / (radiusY * 2)
    if sqrtLt ((box.centerX - centerX) ^ 2 + (box.centerY - centerY) ^ 2) (50 : ℚ)
        ∧ (0.6 : ℚ) < widthRatio ∧ widthRatio < (1.0 : ℚ)
        ∧ (0.6 : ℚ) < heightRatio ∧ heightRatio < (1.0 : ℚ) then
      { aligned := true, reason := .Aligned }
    else
      { aligned := false, reason := .Unaligned }

/-- Alignment evaluation of `predictWebcam` in the third unnamed variant
(part_002, lines 63–146): `GUIDELINE_DIAMETER_RATIO = 0.5` so the guideline
radius is `visibleSize * 0.5 / 2`; exactly one detected face is evaluated as
in `tsxEvaluate`, more than one yields the multiple-faces verdict, zero
yields no-face. -/
def variant002Evaluate (videoWidth videoHeight : ℚ) (faceLandmarks : DetectionResult) :
    AlignmentVerdict :=
  let visibleSize := videoHeight
  let offsetX := (videoWidth - visibleSize) / 2
  let guidelineRadius := visibleSize * (0.5 : ℚ) / 2
  let centerX := videoWidth / 2
  let centerY := videoHeight / 2
  match faceLandmarks with
  | [] => { aligned := false, reason := .NoFace }
  | [landmarks] =>
    let box := faceBoxOf videoWidth videoHeight landmarks
    let faceCenterX := box.centerX
    let faceCenterY := box.centerY
    if offsetX < faceCenterX ∧ faceCenterX < videoWidth - offsetX then
      let maxDistance := visibleSize * (0.1 : ℚ)
      let faceScale := (box.faceWidth + box.faceHeight) / 2 / (guidelineRadius * 2)
      if sqrtLt ((faceCenterX - centerX) ^ 2 + (faceCenterY - centerY) ^ 2) maxDistance
          ∧ (0.6 : ℚ) < faceScale ∧ faceScale < (1.0 : ℚ) then
        { aligned := true, reason := .Aligned }
      else
        { aligned := false, reason := .Unaligned }
    else
      { aligned := false, reason := .Unaligned }
  | _ :: _ :: _ => { aligned := false, reason := .MultipleFaces }

/-- Guideline region, per the spec's data model: center and the two ellipse
radii, in frame pixel space. -/
structure GuidelineRegion where
  centerX : ℚ
  centerY : ℚ
  radiusX : ℚ
  radiusY : ℚ
deriving DecidableEq, Repr

/-- The guideline geometry `FaceCapture.tsx` computes each tick
(lines 76–81 and 131–132): the visible square side is the video height, the
vertical radius is that side over `RADIUS_FACTOR = 2.8`, the horizontal
radius is aspect-corrected by `videoWidth / videoHeight`, and the center is
the frame center. -/
def tsxGuideline (videoWidth videoHeight : ℚ) : GuidelineRegion :=
  let visibleSize := videoHeight
  let radiusY := visibleSize / (2.8 : ℚ)
  { centerX := videoWidth / 2
    centerY := videoHeight / 2
    radiusX := radiusY * (videoWidth / videoHeight)
    radiusY := radiusY }

/-- The one-sided cropped-off margin `FaceCapture.tsx` computes
(line 77): `offsetX = (videoWidth - visibleSize) / 2` with
`visibleSize = videoHeight`. -/
def tsxOffsetX (videoWidth videoHeight : ℚ) : ℚ :=
  (videoWidth - videoHeight) / 2

/-- The guideline radius the part_002 variant computes (line 94):
`(visibleSize * GUIDELINE_DIAMETER_RATIO) / 2` with the diameter ratio
`0.5` and `visibleSize = videoHeight`. -/
def variant002GuidelineRadius (videoHeight : ℚ) : ℚ :=
  videoHeight * (0.5 : ℚ) / 2

/-- Dimensions of a decoded still frame (`image.width` / `image.height` in
`handleCapture`). -/
structure ImageDims where
  width : ℚ
  height : ℚ
deriving DecidableEq, Repr

/-- The square crop `handleCapture` performs on a decoded still frame
(`FaceCapture.tsx` lines 164–177): `size = image.height`, drawn from source
offset `((image.width - size) / 2, 0)`. -/
structure CroppedCapture where
  side : ℚ
  srcOffsetX : ℚ
  srcOffsetY : ℚ
deriving DecidableEq, Repr

/-- Crop geometry of `handleCapture`. -/
def cropToSquare (image : ImageDims) : CroppedCapture :=
  let size := image.height
  { side := size, srcOffsetX := (image.width - size) / 2, srcOffsetY := 0 }

/-- The capture session state `handleCapture` may mutate: the captured image
(`capturedImage`), absent until a capture succeeds. -/
structure CaptureSession where
  capturedImage : Option CroppedCapture
deriving DecidableEq, Repr

/-- `handleCapture` (`FaceCapture.tsx` lines 155–182): if the screenshot is
not produced (`imageSrc` null) nothing happens; once the image decodes, if
the canvas context is unavailable nothing happens; otherwise the cropped
image is stored in the session. -/
def handleCapture (screenshot : Option ImageDims) (ctxAcquired : Bool)
    (session : CaptureSession) : CaptureSession :=
  match screenshot with
  | none => session
  | some image =>
    if ctxAcquired then { capturedImage := some (cropToSquare image) }
    else session

/-- State of the animation-frame loop: whether a `requestAnimationFrame`
request is pending (`animationFrameId.current` holds a live request) and how
many verdicts have been published (`setIsFaceAligned` calls). -/
structure SchedulerState where
  pending : Bool
  published : ℕ
deriving DecidableEq, Repr

/-- One firing of the display-refresh signal: if a request is pending, the
`predictWebcam` callback runs — it publishes a verdict and immediately
requests the next frame; a cancelled (non-pending) request never fires. -/
def rafFire (s : SchedulerState) : SchedulerState :=
  if s.pending then { pending := true, published := s.published + 1 }
  else s

/-- `cancelAnimationFrame(animationFrameId.current)`: the pending request is
withdrawn; the published count is untouched. -/
def cancelFrame (s : SchedulerState) : SchedulerState :=
  { pending := false, published := s.published }

/-- The scheduler effect of `FaceCapture.tsx` lines 142–153: when the model
is loaded, the webcam ready and no image captured, any previous request is
cancelled and the loop is (re)started; otherwise the pending request is
cancelled. -/
def schedulerEffect (modelsLoaded isWebcamReady hasCapturedImage : Bool)
    (s : SchedulerState) : SchedulerState :=
  if modelsLoaded && isWebcamReady && !hasCapturedImage then
    { cancelFrame s with pending := true }
  else cancelFrame s

/-- Modelled from the spec: the maximum center-offset of `AlignmentConfig`
(§3, §4.2 step 5), "expressed either as absolute pixels or as a ratio of the
visible side length — config decides". -/
inductive OffsetMode
  | absolutePixels (maxDistance : ℚ)
  | visibleSideRatio (threshold : ℚ)
deriving DecidableEq, Repr

/-- Modelled from the spec: the scale-ratio computation of §4.2 step 6 —
either "the average of (faceWidth / guidelineDiameterX) and
(faceHeight / guidelineDiameterY)" or "the simpler single-axis ratio used by
the radius-only variants", namely the averaged face extent over the single
(vertical) guideline diameter. -/
inductive ScaleMode
  | perAxisAverage
  | singleRadius
deriving DecidableEq, Repr

/-- Modelled from the spec: the immutable `AlignmentConfig` of §3 — the
guideline size factor, the center-offset form, the scale-ratio form and
bounds, and the multi-face policy. -/
structure AlignmentConfig where
  guidelineDivisor : ℚ
  offsetMode : OffsetMode
  scaleMode : ScaleMode
  minScale : ℚ
  maxScale : ℚ
  rejectMultiFace : Bool
deriving DecidableEq, Repr

/-- Modelled from the spec: GuidelineGeometry (§4.1) — the visible square
side is `min width height`, the vertical radius is that side over the
configured divisor, the horizontal radius is aspect-corrected by
`width / height`, and the center is the frame center. -/
def guidelineGeometry (cfg : AlignmentConfig) (width height : ℚ) : GuidelineRegion :=
  let side := min width height
  let radiusY := side / cfg.guidelineDivisor
  { centerX := width / 2
    centerY := height / 2
    radiusX := radiusY * (width / height)
    radiusY := radiusY }

/-- Modelled from the spec: the unified configurable AlignmentEvaluator of
§4.2, which the four source variants are said to instantiate.  Steps 1–7:
no detections yield `NoFace`; more than one detection under the rejecting
policy yields `MultipleFaces`; otherwise the first face's bounding box is
computed in frame pixels, a face whose horizontal center falls in the
cropped-off margin is immediately `Unaligned`, and alignment requires the
center distance strictly under the configured maximum offset and the scale
ratio strictly inside `(minScale, maxScale)`. -/
def alignmentEvaluator (cfg : AlignmentConfig) (width height : ℚ)
    (detections : DetectionResult) : AlignmentVerdict :=
  match detections with
  | [] => { aligned := false, reason := .NoFace }
  | landmarks :: rest =>
    if cfg.rejectMultiFace ∧ rest ≠ [] then
      { aligned := false, reason := .MultipleFaces }
    else
      let region := guidelineGeometry cfg width height
      let side := min width height
      let offsetX := (width - side) / 2
      let box := faceBoxOf width height landmarks
      if offsetX < box.centerX ∧ box.centerX < width - offsetX then
        let maxDistance :=
          match cfg.offsetMode with
          | .absolutePixels d => d
          | .visibleSideRatio r => side * r
        let scale :=
          match cfg.scaleMode with
          | .perAxisAverage =>
              (box.faceWidth / (region.radiusX * 2) + box.faceHeight / (region.radiusY * 2)) / 2
          | .singleRadius =>
              (box.faceWidth + box.faceHeight) / 2 / (region.radiusY * 2)
        if sqrtLt ((box.centerX - region.centerX) ^ 2 + (box.centerY - region.centerY) ^ 2)
              maxDistance
            ∧ cfg.minScale < scale ∧ scale < cfg.maxScale then
          { aligned := true, reason := .Aligned }
        else
          { aligned := false, reason := .Unaligned }
      else
        { aligned := false, reason := .Unaligned }

/-- The configuration under which the unified evaluator coincides with
`tsxEvaluate` (landscape frames). -/
def tsxConfig : AlignmentConfig :=
  { guidelineDivisor := 2.8
    offsetMode := .visibleSideRatio 0.1
    scaleMode := .singleRadius
    minScale := 0.6
    maxScale := 1.0
    rejectMultiFace := false }

/-- The configuration under which the unified evaluator coincides with
`variant000Evaluate` (landscape frames). -/
def variant000Config : AlignmentConfig :=
  { tsxConfig with guidelineDivisor := 4 }

/-- The configuration under which the unified evaluator coincides with
`variant002Evaluate` (landscape frames). -/
def variant002Config : AlignmentConfig :=
  { tsxConfig with guidelineDivisor := 4, rejectMultiFace := true }

/-- The squared Euclidean distance between the face bounding-box center and
the frame center, as the source computes it under the `Math.sqrt`. -/
def tsxDistanceSq (videoWidth videoHeight : ℚ) (landmarks : LandmarkSet) : ℚ :=
  ((faceBoxOf videoWidth videoHeight landmarks).centerX - videoWidth / 2) ^ 2 +
    ((faceBoxOf videoWidth videoHeight landmarks).centerY - videoHeight / 2) ^ 2

/-- The maximum offset `FaceCapture.tsx` allows:
`visibleSize * CENTER_OFFSET_THRESHOLD`. -/
def tsxMaxDistance (videoHeight : ℚ) : ℚ := videoHeight * (0.1 : ℚ)

/-- The face scale ratio `FaceCapture.tsx` computes:
`(faceWidth + faceHeight) / 2 / (guidelineRadius * 2)` with
`guidelineRadius = videoHeight / 2.8`. -/
def tsxFaceScale (videoWidth videoHeight : ℚ) (landmarks : LandmarkSet) : ℚ :=
  ((faceBoxOf videoWidth videoHeight landmarks).faceWidth +
      (faceBoxOf videoWidth videoHeight landmarks).faceHeight) / 2 /
    (videoHeight / (2.8 : ℚ) * 2)

/-- A face on a 480×480 frame with bounding box 165–315 × 140–340: center
(240, 240), width 150, height 200. -/
def ellipseProbeA : LandmarkSet := [⟨11/32, 7/24⟩, ⟨21/32, 17/24⟩]

/-- A face on a 480×480 frame with bounding box 185–295 × 120–360: center
(240, 240), width 110, height 240 — same width+height sum as
`ellipseProbeA`. -/
def ellipseProbeB : LandmarkSet := [⟨37/96, 1/4⟩, ⟨59/96, 3/4⟩]

/-- The square-free test agrees with the real square-root comparison the
source performs. -/
theorem sqrtLt_iff_real (radicand bound : ℚ) :
    sqrtLt radicand bound ↔ Real.sqrt radicand < (bound : ℝ) := by
  constructor
  · rintro ⟨hb, hlt⟩
    have hb' : (0 : ℝ) < (bound : ℝ) := by exact_mod_cast hb
    rw [Real.sqrt_lt' hb']
    exact_mod_cast hlt
  · intro hlt
    have hb : (0 : ℝ) < (bound : ℝ) :=
      lt_of_le_of_lt (Real.sqrt_nonneg _) hlt
    refine ⟨by exact_mod_cast hb, ?_⟩
    have := (Real.sqrt_lt' hb).mp hlt
    exact_mod_cast this

theorem foldl_min_le_init (l : List ℚ) : ∀ a : ℚ, l.foldl min a ≤ a := by
  induction l with
  | nil => intro a; simp
  | cons x xs ih =>
    intro a
    simpa using le_trans (ih (min a x)) (min_le_left a x)

theorem foldl_min_le_mem (l : List ℚ) : ∀ a b : ℚ, b ∈ l → l.foldl min a ≤ b := by
  induction l with
  | nil => intro a b hb; cases hb
  | cons x xs ih =>
    intro a b hb
    rcases List.mem_cons.mp hb with hbx | hbs
    · subst hbx
      simpa using le_trans (foldl_min_le_init xs (min a b)) (min_le_right a b)
    · simpa using ih (min a x) b hbs

theorem foldl_min_eq_or_mem (l : List ℚ) : ∀ a : ℚ, l.foldl min a = a ∨ l.foldl min a ∈ l := by
  induction l with
  | nil => intro a; exact Or.inl rfl
  | cons x xs ih =>
    intro a
    simp only [List.foldl_cons]
    rcases ih (min a x) with h | h
    · rcases min_choice a x with hax | hax
      · exact Or.inl (h.trans hax)
      · exact Or.inr (List.mem_cons.mpr (Or.inl (h.trans hax)))
    · exact Or.inr (List.mem_cons.mpr (Or.inr h))

theorem minList_le (l : List ℚ) (b : ℚ) (hb : b ∈ l) : minList l ≤ b := by
  match l with
  | [] => cases hb
  | x :: xs =>
    rcases List.mem_cons.mp hb with hbx | hbs
    · subst hbx; exact foldl_min_le_init xs b
    · exact foldl_min_le_mem xs x b hbs

theorem minList_mem (l : List ℚ) (hl : l ≠ []) : minList l ∈ l := by
  match l with
  | [] => exact absurd rfl hl
  | x :: xs =>
    rcases foldl_min_eq_or_mem xs x with h | h
    · exact List.mem_cons.mpr (Or.inl h)
    · exact List.mem_cons.mpr (Or.inr h)

/-- `Math.min` over a spread list is invariant under permutation of the
list. -/
theorem minList_perm {l₁ l₂ : List ℚ} (p : l₁.Perm l₂) : minList l₁ = minList l₂ := by
  match l₁, l₂ with
  | [], l₂ => rw [p.nil_eq]
  | x :: xs, [] => exact absurd p.symm.nil_eq (by simp)
  | x :: xs, y :: ys =>
    refine le_antisymm ?_ ?_
    · exact minList_le _ _ (p.mem_iff.mpr (minList_mem (y :: ys) (by simp)))
    · exact minList_le _ _ (p.mem_iff.mp (minList_mem (x :: xs) (by simp)))

theorem init_le_foldl_max (l : List ℚ) : ∀ a : ℚ, a ≤ l.foldl max a := by
  induction l with
  | nil => intro a; simp
  | cons x xs ih =>
    intro a
    simpa using le_trans (le_max_left a x) (ih (max a x))

theorem mem_le_foldl_max (l : List ℚ) : ∀ a b : ℚ, b ∈ l → b ≤ l.foldl max a := by
  induction l with
  | nil => intro a b hb; cases hb
  | cons x xs ih =>
    intro a b hb
    rcases List.mem_cons.mp hb with hbx | hbs
    · subst hbx
      simpa using le_trans (le_max_right a b) (init_le_foldl_max xs (max a b))
    · simpa using ih (max a x) b hbs

theorem foldl_max_eq_or_mem (l : List ℚ) : ∀ a : ℚ, l.foldl max a = a ∨ l.foldl max a ∈ l := by
  induction l with
  | nil => intro a; exact Or.inl rfl
  | cons x xs ih =>
    intro a
    simp only [List.foldl_cons]
    rcases ih (max a x) with h | h
    · rcases max_choice a x with hax | hax
      · exact Or.inl (h.trans hax)
      · exact Or.inr (List.mem_cons.mpr (Or.inl (h.trans hax)))
    · exact Or.inr (List.mem_cons.mpr (Or.inr h))

theorem le_maxList (l : List ℚ) (b : ℚ) (hb : b ∈ l) : b ≤ maxList l := by
  match l with
  | [] => cases hb
  | x :: xs =>
    rcases List.mem_cons.mp hb with hbx | hbs
    · subst hbx; exact init_le_foldl_max xs b
    · exact mem_le_foldl_max xs x b hbs

theorem maxList_mem (l : List ℚ) (hl : l ≠ []) : maxList l ∈ l := by
  match l with
  | [] => exact absurd rfl hl
  | x :: xs =>
    rcases foldl_max_eq_or_mem xs x with h | h
    · exact List.mem_cons.mpr (Or.inl h)
    · exact List.mem_cons.mpr (Or.inr h)

/-- `Math.max` over a spread list is invariant under permutation of the
list. -/
theorem maxList_perm {l₁ l₂ : List ℚ} (p : l₁.Perm l₂) : maxList l₁ = maxList l₂ := by
  match l₁, l₂ with
  | [], l₂ => rw [p.nil_eq]
  | x :: xs, [] => exact absurd p.symm.nil_eq (by simp)
  | x :: xs, y :: ys =>
    refine le_antisymm ?_ ?_
    · exact le_maxList _ _ (p.mem_iff.mp (maxList_mem (x :: xs) (by simp)))
    · exact le_maxList _ _ (p.mem_iff.mpr (maxList_mem (y :: ys) (by simp)))

/-- On a face whose horizontal center passes the visibility check, the main
evaluator reduces to the distance-and-scale test. -/
theorem tsxEvaluate_visible (videoWidth videoHeight : ℚ) (landmarks : LandmarkSet)
    (rest : DetectionResult)
    (hin : tsxOffsetX videoWidth videoHeight < (faceBoxOf videoWidth videoHeight landmarks).centerX ∧
      (faceBoxOf videoWidth videoHeight landmarks).centerX <
        videoWidth - tsxOffsetX videoWidth videoHeight) :
    tsxEvaluate videoWidth videoHeight (landmarks :: rest) =
      if sqrtLt (tsxDistanceSq videoWidth videoHeight landmarks) (tsxMaxDistance videoHeight)
          ∧ (0.6 : ℚ) < tsxFaceScale videoWidth videoHeight landmarks
          ∧ tsxFaceScale videoWidth videoHeight landmarks < (1.0 : ℚ) then
        { aligned := true, reason := .Aligned }
      else
        { aligned := false, reason := .Unaligned } := by
  simp only [tsxOffsetX] at hin
  simp only [tsxEvaluate, tsxDistanceSq, tsxMaxDistance, tsxFaceScale]
  rw [if_pos hin]

/-- On a face whose horizontal center fails the visibility check, the main
evaluator returns `Unaligned` without consulting distance or scale. -/
theorem tsxEvaluate_margin (videoWidth videoHeight : ℚ) (landmarks : LandmarkSet)
    (rest : DetectionResult)
    (hout : ¬ (tsxOffsetX videoWidth videoHeight <
        (faceBoxOf videoWidth videoHeight landmarks).centerX ∧
      (faceBoxOf videoWidth videoHeight landmarks).centerX <
        videoWidth - tsxOffsetX videoWidth videoHeight)) :
    tsxEvaluate videoWidth videoHeight (landmarks :: rest) =
      { aligned := false, reason := .Unaligned } := by
  simp only [tsxOffsetX] at hout
  simp only [tsxEvaluate]
  rw [if_neg hout]

/-- Margin rejection for the part_000 variant. -/
theorem variant000Evaluate_margin (videoWidth videoHeight : ℚ) (landmarks : LandmarkSet)
    (rest : DetectionResult)
    (hout : ¬ (tsxOffsetX videoWidth videoHeight <
        (faceBoxOf videoWidth videoHeight landmarks).centerX ∧
      (faceBoxOf videoWidth videoHeight landmarks).centerX <
        videoWidth - tsxOffsetX videoWidth videoHeight)) :
    variant000Evaluate videoWidth videoHeight (landmarks :: rest) =
      { aligned := false, reason := .Unaligned } := by
  simp only [tsxOffsetX] at hout
  simp only [variant000Evaluate]
  rw [if_neg hout]

/-- Margin rejection for the part_002 variant on a single detected face. -/
theorem variant002Evaluate_margin (videoWidth videoHeight : ℚ) (landmarks : LandmarkSet)
    (hout : ¬ (tsxOffsetX videoWidth videoHeight <
        (faceBoxOf videoWidth videoHeight landmarks).centerX ∧
      (faceBoxOf videoWidth videoHeight landmarks).centerX <
        videoWidth - tsxOffsetX videoWidth videoHeight)) :
    variant002Evaluate videoWidth videoHeight [landmarks] =
      { aligned := false, reason := .Unaligned } := by
  simp only [tsxOffsetX] at hout
  simp only [variant002Evaluate]
  rw [if_neg hout]

/-- The derived bounding box depends on a landmark set only through the
extrema of the scaled coordinates, so it is invariant under permutation of
the landmark points. -/
theorem faceBoxOf_perm (videoWidth videoHeight : ℚ) {l₁ l₂ : LandmarkSet}
    (p : l₁.Perm l₂) : faceBoxOf videoWidth videoHeight l₁ = faceBoxOf videoWidth videoHeight l₂ := by
  simp only [faceBoxOf]
  have px := p.map (fun p => p.x * videoWidth)
  have py := p.map (fun p => p.y * videoHeight)
  rw [minList_perm px, maxList_perm px, minList_perm py, maxList_perm py]

theorem rafFire_cancelFrame (s : SchedulerState) : rafFire (cancelFrame s) = cancelFrame s := by
  simp [rafFire, cancelFrame]

theorem rafFire_iterate_cancelled (s : SchedulerState) (n : ℕ) :
    rafFire^[n] (cancelFrame s) = cancelFrame s := by
  induction n with
  | zero => rfl
  | succ n ih => rw [Function.iterate_succ_apply, rafFire_cancelFrame, ih]

/-- C1: on a detection result holding exactly one landmark set whose scaled
horizontal center lies inside the visible square, the main evaluator reports
`Aligned` iff the Euclidean distance between the face bounding-box center
and the guideline center is strictly below the maximum offset and the scale
ratio is strictly inside `(0.6, 1.0)`; a distance at or above the maximum
offset, or a scale at or outside the exclusive bounds, yields `Unaligned`. -/
theorem C1_aligned_iff_distance_and_scale (videoWidth videoHeight : ℚ)
    (landmarks : LandmarkSet)
    (hin : tsxOffsetX videoWidth videoHeight <
        (faceBoxOf videoWidth videoHeight landmarks).centerX ∧
      (faceBoxOf videoWidth videoHeight landmarks).centerX <
        videoWidth - tsxOffsetX videoWidth videoHeight) :
    ((tsxEvaluate videoWidth videoHeight [landmarks]).aligned = true ↔
      (tsxEvaluate videoWidth videoHeight [landmarks]).reason = .Aligned) ∧
    ((tsxEvaluate videoWidth videoHeight [landmarks]).reason = .Aligned ↔
      (Real.sqrt (tsxDistanceSq videoWidth videoHeight landmarks) <
          (tsxMaxDistance videoHeight : ℝ)
        ∧ (0.6 : ℚ) < tsxFaceScale videoWidth videoHeight landmarks
        ∧ tsxFaceScale videoWidth videoHeight landmarks < (1.0 : ℚ))) ∧
    ((tsxMaxDistance videoHeight : ℝ) ≤
        Real.sqrt (tsxDistanceSq videoWidth videoHeight landmarks) →
      (tsxEvaluate videoWidth videoHeight [landmarks]).reason = .Unaligned) ∧
    ((tsxFaceScale videoWidth videoHeight landmarks ≤ (0.6 : ℚ) ∨
        (1.0 : ℚ) ≤ tsxFaceScale videoWidth videoHeight landmarks) →
      (tsxEvaluate videoWidth videoHeight [landmarks]).reason = .Unaligned) := by
  rw [tsxEvaluate_visible videoWidth videoHeight landmarks [] hin]
  by_cases hc : sqrtLt (tsxDistanceSq videoWidth videoHeight landmarks)
      (tsxMaxDistance videoHeight)
      ∧ (0.6 : ℚ) < tsxFaceScale videoWidth videoHeight landmarks
      ∧ tsxFaceScale videoWidth videoHeight landmarks < (1.0 : ℚ)
  · rw [if_pos hc]
    obtain ⟨hd, hs1, hs2⟩ := hc
    have hd' := (sqrtLt_iff_real _ _).mp hd
    refine ⟨by simp, ⟨fun _ => ⟨hd', hs1, hs2⟩, fun _ => rfl⟩, ?_, ?_⟩
    · intro hge; exact absurd hd' (not_lt.mpr hge)
    · rintro (hsc | hsc)
      · exact absurd hs1 (not_lt.mpr hsc)
      · exact absurd hs2 (not_lt.mpr hsc)
  · rw [if_neg hc]
    refine ⟨by simp, ?_, fun _ => rfl, fun _ => rfl⟩
    constructor
    · intro hr; exact absurd hr (by simp)
    · rintro ⟨hd', hs1, hs2⟩
      exact absurd ⟨(sqrtLt_iff_real _ _).mpr hd', hs1, hs2⟩ hc

/-- C1 witness: a 1280×720 frame and a face with bounding box
490–790 × 210–510 (center (640, 360), inside the visible square). -/
theorem C1_witness :
    (tsxOffsetX 1280 720 <
        (faceBoxOf 1280 720 [⟨49/128, 21/72⟩, ⟨79/128, 51/72⟩]).centerX ∧
      (faceBoxOf 1280 720 [⟨49/128, 21/72⟩, ⟨79/128, 51/72⟩]).centerX <
        1280 - tsxOffsetX 1280 720) ∧
    (((tsxEvaluate 1280 720 [[⟨49/128, 21/72⟩, ⟨79/128, 51/72⟩]]).aligned = true ↔
      (tsxEvaluate 1280 720 [[⟨49/128, 21/72⟩, ⟨79/128, 51/72⟩]]).reason = .Aligned) ∧
    ((tsxEvaluate 1280 720 [[⟨49/128, 21/72⟩, ⟨79/128, 51/72⟩]]).reason = .Aligned ↔
      (Real.sqrt (tsxDistanceSq 1280 720 [⟨49/128, 21/72⟩, ⟨79/128, 51/72⟩]) <
          (tsxMaxDistance 720 : ℝ)
        ∧ (0.6 : ℚ) < tsxFaceScale 1280 720 [⟨49/128, 21/72⟩, ⟨79/128, 51/72⟩]
        ∧ tsxFaceScale 1280 720 [⟨49/128, 21/72⟩, ⟨79/128, 51/72⟩] < (1.0 : ℚ))) ∧
    ((tsxMaxDistance 720 : ℝ) ≤
        Real.sqrt (tsxDistanceSq 1280 720 [⟨49/128, 21/72⟩, ⟨79/128, 51/72⟩]) →
      (tsxEvaluate 1280 720 [[⟨49/128, 21/72⟩, ⟨79/128, 51/72⟩]]).reason = .Unaligned) ∧
    ((tsxFaceScale 1280 720 [⟨49/128, 21/72⟩, ⟨79/128, 51/72⟩] ≤ (0.6 : ℚ) ∨
        (1.0 : ℚ) ≤ tsxFaceScale 1280 720 [⟨49/128, 21/72⟩, ⟨79/128, 51/72⟩]) →
      (tsxEvaluate 1280 720 [[⟨49/128, 21/72⟩, ⟨79/128, 51/72⟩]]).reason = .Unaligned)) :=
  ⟨by norm_num [tsxOffsetX, faceBoxOf, minList, maxList, FaceBox.centerX,
      FaceBox.faceWidth, min_def, max_def],
   C1_aligned_iff_distance_and_scale 1280 720 _
     (by norm_num [tsxOffsetX, faceBoxOf, minList, maxList, FaceBox.centerX,
       FaceBox.faceWidth, min_def, max_def])⟩

/-- C2: a detection result with two or more landmark sets is always judged
`MultipleFaces` with `aligned = false`, never `Aligned`, by the multi-face
variant (part_002) and by the unified evaluator under any configuration
whose policy rejects multiple faces, regardless of the individual faces. -/
theorem C2_multiple_faces_rejected (videoWidth videoHeight : ℚ)
    (l₁ l₂ : LandmarkSet) (rest : DetectionResult)
    (cfg : AlignmentConfig) (hcfg : cfg.rejectMultiFace = true) :
    variant002Evaluate videoWidth videoHeight (l₁ :: l₂ :: rest) =
      { aligned := false, reason := .MultipleFaces } ∧
    (variant002Evaluate videoWidth videoHeight (l₁ :: l₂ :: rest)).reason ≠ .Aligned ∧
    alignmentEvaluator cfg videoWidth videoHeight (l₁ :: l₂ :: rest) =
      { aligned := false, reason := .MultipleFaces } := by
  refine ⟨rfl, by simp [variant002Evaluate], ?_⟩
  simp [alignmentEvaluator, hcfg]

/-- C2 witness: two faces on a 100×100 frame under the part_002
configuration of the unified evaluator. -/
theorem C2_witness :
    (variant002Config.rejectMultiFace = true) ∧
    (variant002Evaluate 100 100 [[⟨0, 0⟩], [⟨1, 1⟩]] =
      { aligned := false, reason := .MultipleFaces } ∧
    (variant002Evaluate 100 100 [[⟨0, 0⟩], [⟨1, 1⟩]]).reason ≠ .Aligned ∧
    alignmentEvaluator variant002Config 100 100 [[⟨0, 0⟩], [⟨1, 1⟩]] =
      { aligned := false, reason := .MultipleFaces }) :=
  ⟨rfl, C2_multiple_faces_rejected 100 100 [⟨0, 0⟩] [⟨1, 1⟩] [] variant002Config rfl⟩

/-- C5: a single detected face whose scaled horizontal bounding-box center
lies in the cropped-off margin (at or outside the visible square's edge) is
immediately `Unaligned` in the main evaluator and in the part_000 variant;
distance and scale are never consulted. -/
theorem C5_margin_face_never_aligned (videoWidth videoHeight : ℚ)
    (landmarks : LandmarkSet)
    (hout : (faceBoxOf videoWidth videoHeight landmarks).centerX ≤
        tsxOffsetX videoWidth videoHeight ∨
      videoWidth - tsxOffsetX videoWidth videoHeight ≤
        (faceBoxOf videoWidth videoHeight landmarks).centerX) :
    (tsxEvaluate videoWidth videoHeight [landmarks]).aligned = false ∧
    (tsxEvaluate videoWidth videoHeight [landmarks]).reason = .Unaligned ∧
    (variant000Evaluate videoWidth videoHeight [landmarks]).aligned = false ∧
    (variant000Evaluate videoWidth videoHeight [landmarks]).reason = .Unaligned := by
  have hnot : ¬ (tsxOffsetX videoWidth videoHeight <
      (faceBoxOf videoWidth videoHeight landmarks).centerX ∧
    (faceBoxOf videoWidth videoHeight landmarks).centerX <
      videoWidth - tsxOffsetX videoWidth videoHeight) := by
    rcases hout with h1 | h1
    · exact fun hc => absurd hc.1 (not_lt.mpr h1)
    · exact fun hc => absurd hc.2 (not_lt.mpr h1)
  rw [tsxEvaluate_margin videoWidth videoHeight landmarks [] hnot,
    variant000Evaluate_margin videoWidth videoHeight landmarks [] hnot]
  exact ⟨rfl, rfl, rfl, rfl⟩

/-- C5 witness: a 1280×720 frame and a face centered at x = 10, inside the
left cropped-off margin of width 280. -/
theorem C5_witness :
    ((faceBoxOf 1280 720 [⟨1/128, 1/2⟩]).centerX ≤ tsxOffsetX 1280 720 ∨
      1280 - tsxOffsetX 1280 720 ≤ (faceBoxOf 1280 720 [⟨1/128, 1/2⟩]).centerX) ∧
    ((tsxEvaluate 1280 720 [[⟨1/128, 1/2⟩]]).aligned = false ∧
    (tsxEvaluate 1280 720 [[⟨1/128, 1/2⟩]]).reason = .Unaligned ∧
    (variant000Evaluate 1280 720 [[⟨1/128, 1/2⟩]]).aligned = false ∧
    (variant000Evaluate 1280 720 [[⟨1/128, 1/2⟩]]).reason = .Unaligned) :=
  ⟨Or.inl (by norm_num [tsxOffsetX, faceBoxOf, minList, maxList, FaceBox.centerX,
      FaceBox.faceWidth]),
   C5_margin_face_never_aligned 1280 720 _
     (Or.inl (by norm_num [tsxOffsetX, faceBoxOf, minList, maxList, FaceBox.centerX,
       FaceBox.faceWidth]))⟩

/-- C6: once the pending animation-frame request is cancelled, no later
display-refresh firing publishes a verdict (the published count never
increases), and the scheduler effect run on entry to the captured phase
(`hasCapturedImage = true`) cancels the pending request, so no verdict is
published while a captured image is held. -/
theorem C6_cancel_stops_publishing (s : SchedulerState) (n : ℕ)
    (modelsLoaded isWebcamReady : Bool) :
    (rafFire^[n] (cancelFrame s)).published = s.published ∧
    schedulerEffect modelsLoaded isWebcamReady true s = cancelFrame s ∧
    (rafFire^[n] (schedulerEffect modelsLoaded isWebcamReady true s)).published =
      s.published := by
  have hcap : schedulerEffect modelsLoaded isWebcamReady true s = cancelFrame s := by
    simp [schedulerEffect]
  exact ⟨by rw [rafFire_iterate_cancelled]; rfl, hcap,
    by rw [hcap, rafFire_iterate_cancelled]; rfl⟩

/-- C7: when the screenshot is not produced or the draw surface cannot be
acquired, the capture attempt leaves the session untouched. -/
theorem C7_capture_failure_no_mutation (screenshot : Option ImageDims)
    (ctxAcquired : Bool) (session : CaptureSession)
    (hfail : screenshot = none ∨ ctxAcquired = false) :
    handleCapture screenshot ctxAcquired session = session := by
  rcases hfail with h | h
  · rw [h]; rfl
  · rw [h]
    cases screenshot with
    | none => rfl
    | some image => simp [handleCapture]

/-- C7 witness: a decoded 100×50 screenshot with no draw surface leaves an
empty session empty. -/
theorem C7_witness :
    ((some (ImageDims.mk 100 50) = (none : Option ImageDims)) ∨ false = false) ∧
    handleCapture (some (ImageDims.mk 100 50)) false { capturedImage := none } =
      { capturedImage := none } :=
  ⟨Or.inr rfl,
   C7_capture_failure_no_mutation (some (ImageDims.mk 100 50)) false
     { capturedImage := none } (Or.inr rfl)⟩

/-- C9: the alignment verdict is invariant under any permutation of the
landmark points of the evaluated face, in the main evaluator and in the
part_001 variant: the verdict depends on the set only through the extrema
of the scaled coordinates. -/
theorem C9_verdict_perm_invariant (videoWidth videoHeight canvasWidth canvasHeight : ℚ)
    (l₁ l₂ : LandmarkSet) (rest : DetectionResult) (hperm : l₁.Perm l₂) :
    tsxEvaluate videoWidth videoHeight (l₁ :: rest) =
      tsxEvaluate videoWidth videoHeight (l₂ :: rest) ∧
    variant001Evaluate videoWidth videoHeight canvasWidth canvasHeight (l₁ :: rest) =
      variant001Evaluate videoWidth videoHeight canvasWidth canvasHeight (l₂ :: rest) := by
  have hbox := faceBoxOf_perm videoWidth videoHeight hperm
  constructor
  · simp only [tsxEvaluate, hbox]
  · simp only [variant001Evaluate, hbox]

/-- C9 witness: swapping the two landmark points of a face changes no
verdict on a 1280×720 frame (canvas 640×480 for the part_001 variant). -/
theorem C9_witness :
    (([⟨0, 0⟩, ⟨1, 1⟩] : LandmarkSet).Perm [⟨1, 1⟩, ⟨0, 0⟩]) ∧
    (tsxEvaluate 1280 720 [[⟨0, 0⟩, ⟨1, 1⟩]] =
      tsxEvaluate 1280 720 [[⟨1, 1⟩, ⟨0, 0⟩]] ∧
    variant001Evaluate 1280 720 640 480 [[⟨0, 0⟩, ⟨1, 1⟩]] =
      variant001Evaluate 1280 720 640 480 [[⟨1, 1⟩, ⟨0, 0⟩]]) :=
  ⟨List.Perm.swap (⟨1, 1⟩ : Point2D) (⟨0, 0⟩ : Point2D) [],
   C9_verdict_perm_invariant 1280 720 640 480 [⟨0, 0⟩, ⟨1, 1⟩] [⟨1, 1⟩, ⟨0, 0⟩] []
     (List.Perm.swap (⟨1, 1⟩ : Point2D) (⟨0, 0⟩ : Point2D) [])⟩

/-- C10: the edge-crop visibility check is strict at the boundary — a single
detected face whose scaled horizontal bounding-box center equals exactly
`offsetX` or exactly `videoWidth - offsetX` is rejected as `Unaligned` by the
main evaluator and by the part_002 variant; in particular, on a square frame
(`offsetX = 0`) a face center at `x = 0` or `x = videoWidth` never yields
`Aligned`. -/
theorem C10_boundary_center_rejected (videoWidth videoHeight : ℚ)
    (landmarks : LandmarkSet)
    (hb : (faceBoxOf videoWidth videoHeight landmarks).centerX =
        tsxOffsetX videoWidth videoHeight ∨
      (faceBoxOf videoWidth videoHeight landmarks).centerX =
        videoWidth - tsxOffsetX videoWidth videoHeight) :
    (tsxEvaluate videoWidth videoHeight [landmarks]).aligned = false ∧
    (tsxEvaluate videoWidth videoHeight [landmarks]).reason = .Unaligned ∧
    (variant002Evaluate videoWidth videoHeight [landmarks]).aligned = false ∧
    (variant002Evaluate videoWidth videoHeight [landmarks]).reason = .Unaligned := by
  have hnot : ¬ (tsxOffsetX videoWidth videoHeight <
      (faceBoxOf videoWidth videoHeight landmarks).centerX ∧
    (faceBoxOf videoWidth videoHeight landmarks).centerX <
      videoWidth - tsxOffsetX videoWidth videoHeight) := by
    rcases hb with h1 | h1
    · exact fun hc => absurd (h1 ▸ hc.1) (lt_irrefl _)
    · exact fun hc => absurd (h1 ▸ hc.2) (lt_irrefl _)
  rw [tsxEvaluate_margin videoWidth videoHeight landmarks [] hnot,
    variant002Evaluate_margin videoWidth videoHeight landmarks hnot]
  exact ⟨rfl, rfl, rfl, rfl⟩

/-- C10 witness: a square 480×480 frame (`offsetX = 0`) and a face centered
exactly at `x = 0`. -/
theorem C10_witness :
    ((faceBoxOf 480 480 [⟨0, 1/2⟩]).centerX = tsxOffsetX 480 480 ∨
      (faceBoxOf 480 480 [⟨0, 1/2⟩]).centerX = 480 - tsxOffsetX 480 480) ∧
    ((tsxEvaluate 480 480 [[⟨0, 1/2⟩]]).aligned = false ∧
    (tsxEvaluate 480 480 [[⟨0, 1/2⟩]]).reason = .Unaligned ∧
    (variant002Evaluate 480 480 [[⟨0, 1/2⟩]]).aligned = false ∧
    (variant002Evaluate 480 480 [[⟨0, 1/2⟩]]).reason = .Unaligned) :=
  ⟨Or.inl (by norm_num [tsxOffsetX, faceBoxOf, minList, maxList, FaceBox.centerX,
      FaceBox.faceWidth]),
   C10_boundary_center_rejected 480 480 _
     (Or.inl (by norm_num [tsxOffsetX, faceBoxOf, minList, maxList, FaceBox.centerX,
       FaceBox.faceWidth]))⟩

/-- C3 counterexample: on a portrait 720×1280 frame the source computes the
guideline's vertical radius from the video height (1280 / 2.8), not from
`min(width, height) = 720` as claimed. -/
theorem C3_counterexample :
    ¬ ((tsxGuideline 720 1280).radiusY = min (720 : ℚ) 1280 / (2.8 : ℚ)) := by
  norm_num [tsxGuideline, min_def]

/-- C3 amended: for landscape frames (height ≤ width, the operating regime
of every variant) the guideline is centered at the frame center, its
vertical radius is `min(width, height) / 2.8`, its horizontal radius is the
vertical radius scaled by the frame aspect ratio, the crop offset along the
longer axis is `(max - min) / 2`, and the part_002 radius is
`min(width, height) × 0.5 / 2`. -/
theorem C3_amended_geometry (videoWidth videoHeight : ℚ)
    (hle : videoHeight ≤ videoWidth) :
    (tsxGuideline videoWidth videoHeight).centerX = videoWidth / 2 ∧
    (tsxGuideline videoWidth videoHeight).centerY = videoHeight / 2 ∧
    (tsxGuideline videoWidth videoHeight).radiusY =
      min videoWidth videoHeight / (2.8 : ℚ) ∧
    (tsxGuideline videoWidth videoHeight).radiusX =
      (tsxGuideline videoWidth videoHeight).radiusY * (videoWidth / videoHeight) ∧
    tsxOffsetX videoWidth videoHeight =
      (max videoWidth videoHeight - min videoWidth videoHeight) / 2 ∧
    variant002GuidelineRadius videoHeight =
      min videoWidth videoHeight * (0.5 : ℚ) / 2 := by
  rw [min_eq_right hle, max_eq_left hle]
  exact ⟨rfl, rfl, rfl, rfl, rfl, rfl⟩

/-- C3 witness: the 1280×720 landscape frame. -/
theorem C3_witness :
    ((720 : ℚ) ≤ 1280) ∧
    ((tsxGuideline 1280 720).centerX = 1280 / 2 ∧
    (tsxGuideline 1280 720).centerY = 720 / 2 ∧
    (tsxGuideline 1280 720).radiusY = min (1280 : ℚ) 720 / (2.8 : ℚ) ∧
    (tsxGuideline 1280 720).radiusX =
      (tsxGuideline 1280 720).radiusY * (1280 / 720) ∧
    tsxOffsetX 1280 720 = (max (1280 : ℚ) 720 - min (1280 : ℚ) 720) / 2 ∧
    variant002GuidelineRadius 720 = min (1280 : ℚ) 720 * (0.5 : ℚ) / 2) :=
  ⟨by norm_num, C3_amended_geometry 1280 720 (by norm_num)⟩

/-- C4 counterexample: on a portrait 1080×1920 decoded frame the capture
crop side is the decoded height 1920 (the longer side), not
`min(width, height) = 1080` as claimed. -/
theorem C4_counterexample :
    ¬ ((cropToSquare ⟨1080, 1920⟩).side = min (1080 : ℚ) 1920) := by
  norm_num [cropToSquare, min_def]

/-- C4 amended: for decoded frames with height ≤ width (the requested
1920×1080 capture geometry) the crop side equals `min(width, height)`
exactly, the source offset along the longer (horizontal) axis is
`(max - min) / 2`, and the shorter axis has zero offset. -/
theorem C4_amended_crop (decodedWidth decodedHeight : ℚ)
    (hle : decodedHeight ≤ decodedWidth) :
    (cropToSquare ⟨decodedWidth, decodedHeight⟩).side =
      min decodedWidth decodedHeight ∧
    (cropToSquare ⟨decodedWidth, decodedHeight⟩).srcOffsetX =
      (max decodedWidth decodedHeight - min decodedWidth decodedHeight) / 2 ∧
    (cropToSquare ⟨decodedWidth, decodedHeight⟩).srcOffsetY = 0 := by
  rw [min_eq_right hle, max_eq_left hle]
  exact ⟨rfl, rfl, rfl⟩

/-- C4 witness: the requested 1920×1080 still frame. -/
theorem C4_witness :
    ((1080 : ℚ) ≤ 1920) ∧
    ((cropToSquare ⟨1920, 1080⟩).side = min (1920 : ℚ) 1080 ∧
    (cropToSquare ⟨1920, 1080⟩).srcOffsetX =
      (max (1920 : ℚ) 1080 - min (1920 : ℚ) 1080) / 2 ∧
    (cropToSquare ⟨1920, 1080⟩).srcOffsetY = 0) :=
  ⟨by norm_num, C4_amended_crop 1920 1080 (by norm_num)⟩

theorem tsx_eq_unified (videoWidth videoHeight : ℚ) (det : DetectionResult)
    (hle : videoHeight ≤ videoWidth) :
    tsxEvaluate videoWidth videoHeight det =
      alignmentEvaluator tsxConfig videoWidth videoHeight det := by
  cases det with
  | nil => rfl
  | cons landmarks rest =>
    have hmf : ¬ ((false : Bool) = true ∧ rest ≠ []) := by simp
    simp only [tsxEvaluate, alignmentEvaluator, guidelineGeometry, tsxConfig,
      min_eq_right hle, if_neg hmf]

theorem variant000_eq_unified (videoWidth videoHeight : ℚ) (det : DetectionResult)
    (hle : videoHeight ≤ videoWidth) :
    variant000Evaluate videoWidth videoHeight det =
      alignmentEvaluator variant000Config videoWidth videoHeight det := by
  cases det with
  | nil => rfl
  | cons landmarks rest =>
    have hmf : ¬ ((false : Bool) = true ∧ rest ≠ []) := by simp
    simp only [variant000Evaluate, alignmentEvaluator, guidelineGeometry,
      variant000Config, tsxConfig, min_eq_right hle, if_neg hmf]

theorem variant002_eq_unified (videoWidth videoHeight : ℚ) (det : DetectionResult)
    (hle : videoHeight ≤ videoWidth) :
    variant002Evaluate videoWidth videoHeight det =
      alignmentEvaluator variant002Config videoWidth videoHeight det := by
  cases det with
  | nil => rfl
  | cons landmarks rest =>
    cases rest with
    | nil =>
      have hmf : ¬ ((true : Bool) = true ∧ ([] : DetectionResult) ≠ []) := by simp
      have hrad : videoHeight * (0.5 : ℚ) / 2 = videoHeight / 4 := by
        rw [show (0.5 : ℚ) = 1 / 2 by norm_num]; ring
      simp only [variant002Evaluate, alignmentEvaluator, guidelineGeometry,
        variant002Config, tsxConfig, min_eq_right hle, if_neg hmf, hrad]
      simp
    | cons l₂ rest₂ =>
      have hmf : ((true : Bool) = true ∧ (l₂ :: rest₂ : DetectionResult) ≠ []) :=
        ⟨rfl, by simp⟩
      simp only [variant002Evaluate, alignmentEvaluator, variant002Config, tsxConfig,
        if_pos hmf]
      simp

theorem probeA_box : faceBoxOf 480 480 ellipseProbeA =
    { minX := 165, maxX := 315, minY := 140, maxY := 340 } := by
  norm_num [ellipseProbeA, faceBoxOf, minList, maxList, min_def, max_def]

theorem probeB_box : faceBoxOf 480 480 ellipseProbeB =
    { minX := 185, maxX := 295, minY := 120, maxY := 360 } := by
  norm_num [ellipseProbeB, faceBoxOf, minList, maxList, min_def, max_def]

theorem probeA_ellipse_verdict :
    variant001Evaluate 480 480 480 480 [ellipseProbeA] =
      { aligned := true, reason := .Aligned } := by
  simp only [variant001Evaluate, probeA_box]
  norm_num [FaceBox.centerX, FaceBox.centerY, FaceBox.faceWidth, FaceBox.faceHeight,
    sqrtLt]

theorem probeB_ellipse_verdict :
    variant001Evaluate 480 480 480 480 [ellipseProbeB] =
      { aligned := false, reason := .Unaligned } := by
  simp only [variant001Evaluate, probeB_box]
  norm_num [FaceBox.centerX, FaceBox.centerY, FaceBox.faceWidth, FaceBox.faceHeight,
    sqrtLt]

theorem unified_probe_eq (cfg : AlignmentConfig) :
    alignmentEvaluator cfg 480 480 [ellipseProbeA] =
      alignmentEvaluator cfg 480 480 [ellipseProbeB] := by
  obtain ⟨d, om, sm, minS, maxS, rej⟩ := cfg
  have hmf : ¬ (rej = true ∧ ([] : DetectionResult) ≠ []) := by simp
  cases om <;> cases sm <;>
    simp only [alignmentEvaluator, guidelineGeometry, probeA_box, probeB_box,
      FaceBox.centerX, FaceBox.centerY, FaceBox.faceWidth, FaceBox.faceHeight,
      if_neg hmf] <;>
    norm_num <;>
    rw [show ((150 : ℚ) / (480 / d * 2) + 200 / (480 / d * 2)) / 2 =
        (110 / (480 / d * 2) + 240 / (480 / d * 2)) / 2 from by ring]

/-- C8 counterexample: the ellipse variant (part_001, canvas dimensions
equal to the frame dimensions, as deployed) is NOT an instance of the
unified configurable evaluator: no `AlignmentConfig` reproduces its verdicts
on every frame and detection result.  On a square 480×480 frame the probes
`ellipseProbeA` (width 150, height 200) and `ellipseProbeB` (width 110,
height 240) share center, face count and width+height sum, so every
configuration of the unified core scores them identically, yet the
per-axis conjunction of part_001 accepts the first and rejects the second. -/
theorem C8_counterexample :
    ¬ ∃ cfg : AlignmentConfig, ∀ (videoWidth videoHeight : ℚ) (det : DetectionResult),
        variant001Evaluate videoWidth videoHeight videoWidth videoHeight det =
          alignmentEvaluator cfg videoWidth videoHeight det := by
  rintro ⟨cfg, hall⟩
  have hAB : variant001Evaluate 480 480 480 480 [ellipseProbeA] =
      variant001Evaluate 480 480 480 480 [ellipseProbeB] := by
    rw [hall 480 480 [ellipseProbeA], hall 480 480 [ellipseProbeB],
      unified_probe_eq cfg]
  rw [probeA_ellipse_verdict, probeB_ellipse_verdict] at hAB
  exact absurd hAB (by simp)

/-- C8 amended: the circle variants (`FaceCapture.tsx`, part_000) and the
multi-face variant (part_002) are exactly instances of the unified
configurable evaluator on landscape frames, differing only in their
`AlignmentConfig`; the ellipse variant (part_001) additionally differs in
evaluation logic (separate per-axis scale checks, no cropped-margin check)
and is not an instance (see the counterexample). -/
theorem C8_amended_variants_refine_unified (videoWidth videoHeight : ℚ)
    (det : DetectionResult) (hle : videoHeight ≤ videoWidth) :
    tsxEvaluate videoWidth videoHeight det =
      alignmentEvaluator tsxConfig videoWidth videoHeight det ∧
    variant000Evaluate videoWidth videoHeight det =
      alignmentEvaluator variant000Config videoWidth videoHeight det ∧
    variant002Evaluate videoWidth videoHeight det =
      alignmentEvaluator variant002Config videoWidth videoHeight det :=
  ⟨tsx_eq_unified videoWidth videoHeight det hle,
   variant000_eq_unified videoWidth videoHeight det hle,
   variant002_eq_unified videoWidth videoHeight det hle⟩

/-- C8 witness: a 1280×720 frame with one single-point face. -/
theorem C8_witness :
    ((720 : ℚ) ≤ 1280) ∧
    (tsxEvaluate 1280 720 [[⟨0, 0⟩]] =
      alignmentEvaluator tsxConfig 1280 720 [[⟨0, 0⟩]] ∧
    variant000Evaluate 1280 720 [[⟨0, 0⟩]] =
      alignmentEvaluator variant000Config 1280 720 [[⟨0, 0⟩]] ∧
    variant002Evaluate 1280 720 [[⟨0, 0⟩]] =
      alignmentEvaluator variant002Config 1280 720 [[⟨0, 0⟩]]) :=
  ⟨by norm_num,
   C8_amended_variants_refine_unified 1280 720 [[⟨0, 0⟩]] (by norm_num)⟩
